import Mathlib

/-!
Shallow embedding of `src/static/app/views/replays/utils/useReplayEvent.tsx`
(the "Replay Event Aggregator").

The TypeScript file exposes a hook `useReplayEvent` that

  * parses an `eventSlug` of the form `<projectId>:<eventId>` via
    `eventSlug.split(':')` and array destructuring,
  * runs three fetch branches concurrently (`fetchEvent`,
    `fetchRRWebEvents`, `fetchReplayEvents`) joined by `Promise.all`,
  * merges the related replay events into one synthetic event, and
  * publishes a `State` snapshot, either a fully populated success
    snapshot or an all-undefined error snapshot.

Network effects are modelled by passing each fetch branch's resolved
outcome as an `Except` value; JavaScript exceptions raised inside the
`try` block (e.g. `TypeError` from dereferencing `undefined`) are
modelled by the `Except` error channel as well, since the `catch`
clause treats both uniformly.
-/

/-- JavaScript character test for `[0-9]`. -/
def isAsciiDigit (c : Char) : Bool := '0' ≤ c && c ≤ '9'

/-- ECMA-262 LineTerminator characters: LF, CR, LINE SEPARATOR
(U+2028) and PARAGRAPH SEPARATOR (U+2029).  An unflagged JavaScript
regex dot matches any character EXCEPT these (no `s` flag is set on
the source regex). -/
def isLineTerminator (c : Char) : Bool :=
  c = '\n' || c = '\r' || c = '\u2028' || c = '\u2029'

/-- Does the character list START with a match of the regex
`rrweb-[0-9]{13}.json`?  Note the regex in the source
(`IS_RRWEB_ATTACHMENT_FILENAME`, line 76) leaves the dot unescaped and
carries no `s` flag, so that position matches any single character
other than a line terminator. -/
def rrwebMatchAt (cs : List Char) : Bool :=
  match cs with
  | 'r' :: 'r' :: 'w' :: 'e' :: 'b' :: '-' ::
    d1 :: d2 :: d3 :: d4 :: d5 :: d6 :: d7 :: d8 :: d9 :: d10 :: d11 :: d12 :: d13 ::
    dot :: 'j' :: 's' :: 'o' :: 'n' :: _rest =>
      [d1, d2, d3, d4, d5, d6, d7, d8, d9, d10, d11, d12, d13].all isAsciiDigit &&
        !isLineTerminator dot
  | _ => false

/-- JavaScript `RegExp.prototype.test` for the unanchored regex
`/rrweb-[0-9]{13}.json/`: search for a match starting at any
position of the string. -/
def regexTestRRWeb : List Char → Bool
  | [] => false
  | c :: rest => rrwebMatchAt (c :: rest) || regexTestRRWeb rest

/-- Attachment metadata record (`IssueAttachment`): only the fields read
by this module (`id` for the download URL, `name` for the filter). -/
structure IssueAttachment where
  id : String
  name : String
  deriving DecidableEq, Repr

/-- `isRRWebEventAttachment` (source lines 76-79): tests the attachment
name against `IS_RRWEB_ATTACHMENT_FILENAME`. -/
def isRRWebEventAttachment (attachment : IssueAttachment) : Bool :=
  regexTestRRWeb attachment.name.toList

/-- The literal naming convention the spec describes:
the name IS `rrweb-<13 digits>.json`, with a real dot before the
extension and nothing before or after.  This definition follows the
spec's words (section 3, "fixed naming convention
`rrweb-<13-digit-timestamp>.json`"), to be compared with the source's
`isRRWebEventAttachment`. -/
def specExactRRWebName (name : String) : Bool :=
  match name.toList with
  | 'r' :: 'r' :: 'w' :: 'e' :: 'b' :: '-' ::
    d1 :: d2 :: d3 :: d4 :: d5 :: d6 :: d7 :: d8 :: d9 :: d10 :: d11 :: d12 :: d13 ::
    '.' :: 'j' :: 's' :: 'o' :: 'n' :: [] =>
      [d1, d2, d3, d4, d5, d6, d7, d8, d9, d10, d11, d12, d13].all isAsciiDigit
  | _ => false

/-- Entry discriminant (`EntryType` from `sentry/types/event`); the
source only distinguishes `SPANS` from everything else
(`isReplayEventEntity`, lines 13-21), so other enum members are
collapsed into representative constructors. -/
inductive EntryType where
  | spans
  | breadcrumbs
  | other (tag : String)
  deriving DecidableEq, Repr

/-- A span record inside a spans entry.  The merge only ever reads its
`timestamp` (line 180); `op` stands for the remaining payload. -/
structure Span where
  timestamp : Int
  op : String
  deriving DecidableEq, Repr

/-- An event entry: a discriminant and a data payload.  Only spans
entries' data is ever read by this module, so `data` is modelled as a
span list. -/
structure Entry where
  type : EntryType
  data : List Span
  deriving DecidableEq, Repr

/-- `isReplayEventEntity` (source lines 13-21): allowlist containing
only the `SPANS` entry type. -/
def isReplayEventEntity (entry : Entry) : Bool :=
  match entry.type with
  | EntryType.spans => true
  | _ => false

/-- An event body (`Event` from `sentry/types/event`): the attributes
the merge writes (`breakdowns`, `entries`, `endTimestamp`) plus `id`
and `title` as representatives of the attributes carried over
unchanged by the object spread on line 176.  JavaScript fields may be
absent/undefined, hence the `Option` types. -/
structure Event where
  id : Option String
  title : Option String
  breakdowns : Option String
  entries : List Entry
  endTimestamp : Option Int
  deriving DecidableEq, Repr

/-- One rrweb timed sub-event (`eventWithTime`): opaque payload with a
timestamp; this module never inspects it, only flattens lists of it. -/
structure RRWebEvent where
  timestamp : Int
  payload : String
  deriving DecidableEq, Repr

/-- An error caught by the `catch` clause on line 193: either a
`RequestError` from a fetch branch or a `TypeError` raised by
dereferencing `undefined` during the merge. -/
inductive JsError where
  | requestError (status : Nat)
  | typeError
  deriving DecidableEq, Repr

instance {ε α : Type} [DecidableEq ε] [DecidableEq α] : DecidableEq (Except ε α) := fun a b =>
  match a, b with
  | Except.error e, Except.error f =>
    if h : e = f then isTrue (by rw [h])
    else isFalse (by intro hh; cases hh; exact h rfl)
  | Except.error _, Except.ok _ => isFalse (by intro hh; cases hh)
  | Except.ok _, Except.error _ => isFalse (by intro hh; cases hh)
  | Except.ok x, Except.ok y =>
    if h : x = y then isTrue (by rw [h])
    else isFalse (by intro hh; cases hh; exact h rfl)

/-- The hook's `State` (source lines 22-55). -/
structure State where
  fetchError : Option JsError
  fetching : Bool
  breadcrumbEntry : Option Entry
  event : Option Event
  replayEvents : Option (List Event)
  rrwebEvents : Option (List RRWebEvent)
  mergedReplayEvent : Option Event
  deriving DecidableEq, Repr

/-- JavaScript `String.prototype.split(':')` on a character list:
splits at every colon, keeping empty segments; an empty string yields
one empty segment. -/
def splitColon : List Char → List (List Char)
  | [] => [[]]
  | c :: rest =>
    if c = ':' then [] :: splitColon rest
    else
      match splitColon rest with
      | [] => [[c]]
      | s :: ss => (c :: s) :: ss

/-- Line 82: `const [projectId, eventId] = eventSlug.split(':')`.
Array destructuring reads elements 0 and 1; a missing element is
`undefined` (modelled `none`); extra segments are dropped. -/
def parseEventSlug (eventSlug : String) : Option String × Option String :=
  match splitColon eventSlug.toList with
  | [] => (none, none)
  | [p] => (some (String.mk p), none)
  | p :: e :: _ => (some (String.mk p), some (String.mk e))

/-- JavaScript template-literal interpolation of a possibly-undefined
value: `undefined` prints as the literal string `undefined`. -/
def jsInterp (o : Option String) : String :=
  match o with
  | some s => s
  | none => "undefined"

/-- The attachment-list URL the hook builds on line 103, as a function
of the raw slug: the parsed pieces are interpolated into the path with
no validation in between. -/
def attachmentsUrl (orgId : String) (eventSlug : String) : String :=
  let parsed := parseEventSlug eventSlug
  "/projects/" ++ orgId ++ "/" ++ jsInterp parsed.1 ++ "/events/" ++
    jsInterp parsed.2 ++ "/attachments/"

/-- `Promise.all(rrwebAttachmentIds.map(download))` (lines 106-113):
every selected attachment is downloaded and parsed; results keep list
order; any rejection rejects the whole join. -/
def downloadAll (download : IssueAttachment → Except JsError (List RRWebEvent)) :
    List IssueAttachment → Except JsError (List (List RRWebEvent))
  | [] => Except.ok []
  | a :: rest =>
    match download a with
    | Except.error e => Except.error e
    | Except.ok d =>
      match downloadAll download rest with
      | Except.error e => Except.error e
      | Except.ok ds => Except.ok (d :: ds)

/-- `fetchRRWebEvents` (source lines 101-115): list attachments, filter
with `isRRWebEventAttachment`, download and parse each selected
attachment (each download resolves to that attachment's `events`
array), and flatten.  The listing outcome and the per-attachment
download outcomes are passed in as resolved values. -/
def fetchRRWebEvents (listResult : Except JsError (List IssueAttachment))
    (download : IssueAttachment → Except JsError (List RRWebEvent)) :
    Except JsError (List RRWebEvent) :=
  match listResult with
  | Except.error e => Except.error e
  | Except.ok attachmentIds =>
    match downloadAll download (attachmentIds.filter isRRWebEventAttachment) with
    | Except.error e => Except.error e
    | Except.ok attachments => Except.ok attachments.flatten

/-- `replayEvent.entries.find(isReplayEventEntity).data` (line 170):
`Array.prototype.find` returns the first matching entry or
`undefined`; reading `.data` off `undefined` throws a `TypeError`. -/
def findSpansData (replayEvent : Event) : Except JsError (List Span) :=
  match replayEvent.entries.find? isReplayEventEntity with
  | some entry => Except.ok entry.data
  | none => Except.error JsError.typeError

/-- The span concatenation on lines 169-171:
`replayEvents.flatMap(replayEvent => replayEvent.entries.find(...).data)`.
`flatMap` evaluates its callback left to right, so the first event
without a spans entry raises the `TypeError`. -/
def computeSpans : List Event → Except JsError (List Span)
  | [] => Except.ok []
  | replayEvent :: rest =>
    match findSpansData replayEvent with
    | Except.error e => Except.error e
    | Except.ok d =>
      match computeSpans rest with
      | Except.error e => Except.error e
      | Except.ok ds => Except.ok (d ++ ds)

/-- Object-spreading `undefined` (`{...replayEvents[0]}` with an empty
list) contributes no properties: every base attribute is absent. -/
def emptyBaseEvent : Event :=
  { id := none, title := none, breakdowns := none, entries := [], endTimestamp := none }

/-- The merged event literal on lines 175-181: spread of
`replayEvents[0]` (or of `undefined` when the list is empty), then
`breakdowns: null`, a single spans entry holding the concatenated
sequence, and `endTimestamp: spans[spans.length - 1]?.timestamp`. -/
def mkMerged (replayEvents : List Event) (spans : List Span) : Event :=
  let base :=
    match replayEvents.head? with
    | some e => e
    | none => emptyBaseEvent
  { base with
    breakdowns := none
    entries := [{ type := EntryType.spans, data := spans }]
    endTimestamp := (spans.getLast?).map Span.timestamp }

/-- The error snapshot published by the `catch` clause (lines 194-203). -/
def errorSnapshot (e : JsError) : State :=
  { fetchError := some e, fetching := false, breadcrumbEntry := none,
    event := none, replayEvents := none, rrwebEvents := none,
    mergedReplayEvent := none }

/-- The initial state installed by `useState` (source lines 85-93):
fetching, no error, no data. -/
def initialState : State :=
  { fetchError := none, fetching := true, breadcrumbEntry := none,
    event := none, replayEvents := none, rrwebEvents := none,
    mergedReplayEvent := none }

/-- `Promise.all` over the three fetch branches (lines 160-164): all
must resolve; otherwise the join rejects with a failing branch's
error.  (Temporal order of rejections is not modelled; the tuple-order
first error stands for the triggering rejection.) -/
def promiseAll3 (a : Except JsError Event) (b : Except JsError (List RRWebEvent))
    (c : Except JsError (List Event)) :
    Except JsError (Event × List RRWebEvent × List Event) :=
  match a with
  | Except.error e => Except.error e
  | Except.ok x =>
    match b with
    | Except.error e => Except.error e
    | Except.ok y =>
      match c with
      | Except.error e => Except.error e
      | Except.ok z => Except.ok (x, y, z)

/-- `loadEvents` (source lines 148-205): join the three branches, merge
breadcrumbs (delegated to the external `mergeBreadcrumbsEntries`,
passed as `mergeBreadcrumbs`), concatenate spans, build the merged
event, and publish the success snapshot; any rejection or thrown
`TypeError` lands in the `catch` clause, which publishes the
all-undefined error snapshot. -/
def loadEvents (mergeBreadcrumbs : List Event → Option Entry)
    (fetchEvent : Except JsError Event)
    (fetchRRWeb : Except JsError (List RRWebEvent))
    (fetchReplay : Except JsError (List Event)) : State :=
  match promiseAll3 fetchEvent fetchRRWeb fetchReplay with
  | Except.error e => errorSnapshot e
  | Except.ok (event, rrwebEvents, replayEvents) =>
    match computeSpans replayEvents with
    | Except.error e => errorSnapshot e
    | Except.ok spans =>
      { fetchError := none, fetching := false,
        breadcrumbEntry := mergeBreadcrumbs replayEvents,
        event := some event,
        replayEvents := some replayEvents,
        rrwebEvents := some rrwebEvents,
        mergedReplayEvent := some (mkMerged replayEvents spans) }

/-- One load cycle's resolved inputs: what its three fetches will
yield once they settle (and the external breadcrumb merger). -/
structure LoadCycle where
  mergeBreadcrumbs : List Event → Option Entry
  fetchEvent : Except JsError Event
  fetchRRWeb : Except JsError (List RRWebEvent)
  fetchReplay : Except JsError (List Event)

/-- A cycle's completion computes its snapshot via `loadEvents`. -/
def completeCycle (c : LoadCycle) : State :=
  loadEvents c.mergeBreadcrumbs c.fetchEvent c.fetchRRWeb c.fetchReplay

/-- The published snapshot after a sequence of cycle completions, in
completion order: the source's completion handler (lines 183-204)
calls `setState` unconditionally — there is no check that the cycle
being completed is still the current one — so each completion
overwrites the snapshot. -/
def publishAll (init : State) (completions : List LoadCycle) : State :=
  completions.foldl (fun _ c => completeCycle c) init

/-! ## Helper lemmas -/

/-- The unanchored regex search succeeds iff a match starts at some
position of the string. -/
theorem regexTestRRWeb_iff (cs : List Char) :
    regexTestRRWeb cs = true ↔ ∃ n, rrwebMatchAt (List.drop n cs) = true := by
  induction cs with
  | nil =>
    constructor
    · intro h
      exact absurd h (by decide)
    · rintro ⟨n, h⟩
      rw [List.drop_nil] at h
      exact absurd h (by decide)
  | cons c rest ih =>
    constructor
    · intro h
      simp only [regexTestRRWeb, Bool.or_eq_true] at h
      rcases h with h1 | h2
      · exact ⟨0, h1⟩
      · obtain ⟨n, hn⟩ := ih.mp h2
        exact ⟨n + 1, by rw [List.drop_succ_cons]; exact hn⟩
    · rintro ⟨n, hn⟩
      simp only [regexTestRRWeb, Bool.or_eq_true]
      match n with
      | 0 => exact Or.inl hn
      | n + 1 =>
        rw [List.drop_succ_cons] at hn
        exact Or.inr (ih.mpr ⟨n, hn⟩)

/-- Splitting a colon-free string yields a single segment. -/
theorem splitColon_no_colon (cs : List Char) (h : ∀ c ∈ cs, c ≠ ':') :
    splitColon cs = [cs] := by
  induction cs with
  | nil => rfl
  | cons c rest ih =>
    have hc : c ≠ ':' := h c (List.mem_cons_self c rest)
    have hrest : ∀ x ∈ rest, x ≠ ':' := fun x hx => h x (List.mem_cons_of_mem c hx)
    simp only [splitColon, if_neg hc, ih hrest]

/-- Splitting past a colon preceded by a colon-free prefix peels off
that prefix as the first segment. -/
theorem splitColon_append_colon (p rest : List Char) (h : ∀ c ∈ p, c ≠ ':') :
    splitColon (p ++ ':' :: rest) = p :: splitColon rest := by
  induction p with
  | nil => simp [splitColon]
  | cons c q ih =>
    have hc : c ≠ ':' := h c (List.mem_cons_self c q)
    have hq : ∀ x ∈ q, x ≠ ':' := fun x hx => h x (List.mem_cons_of_mem c hx)
    simp only [List.cons_append, splitColon, if_neg hc, List.append_eq, ih hq]

/-- `downloadAll` only looks at the download outcomes of the
attachments in its list. -/
theorem downloadAll_congr (download download' : IssueAttachment → Except JsError (List RRWebEvent))
    (l : List IssueAttachment) (h : ∀ a ∈ l, download a = download' a) :
    downloadAll download l = downloadAll download' l := by
  induction l with
  | nil => rfl
  | cons a rest ih =>
    have ha : download a = download' a := h a (List.mem_cons_self a rest)
    have hrest : ∀ x ∈ rest, download x = download' x :=
      fun x hx => h x (List.mem_cons_of_mem a hx)
    simp only [downloadAll, ha, ih hrest]

/-- Reduction of `loadEvents` when all three fetches resolve and the
span concatenation succeeds. -/
theorem loadEvents_ok_of_spans (mb : List Event → Option Entry) (ev : Event)
    (rr : List RRWebEvent) (evs : List Event) (spans : List Span)
    (h : computeSpans evs = Except.ok spans) :
    loadEvents mb (Except.ok ev) (Except.ok rr) (Except.ok evs) =
      { fetchError := none, fetching := false, breadcrumbEntry := mb evs,
        event := some ev, replayEvents := some evs, rrwebEvents := some rr,
        mergedReplayEvent := some (mkMerged evs spans) } := by
  simp only [loadEvents, promiseAll3, h]

/-! ## C3: attachment selection -/

/-- C3 counterexample: the source regex `/rrweb-[0-9]{13}.json/` is
unanchored and leaves the dot unescaped, so the attachment named
`rrweb-1234567890123Xjson` is selected (and hence downloaded) even
though its name does not match the literal convention
`rrweb-<13 digits>.json`. -/
theorem rrweb_filter_pattern_counterexample :
    isRRWebEventAttachment { id := "7", name := "rrweb-1234567890123Xjson" } = true ∧
    specExactRRWebName "rrweb-1234567890123Xjson" = false ∧
    List.filter isRRWebEventAttachment
        [{ id := "7", name := "rrweb-1234567890123Xjson" }] =
      [({ id := "7", name := "rrweb-1234567890123Xjson" } : IssueAttachment)] := by
  refine ⟨by decide, by decide, by decide⟩

/-- C3 (amended): the attachment collector selects exactly those
records whose name CONTAINS a match of `rrweb-`, thirteen digits, any
single character other than a line terminator, then `json` (the regex
is unanchored and its unescaped, unflagged dot matches everything but
LineTerminator); the selected subsequence preserves the
server-provided list order, and attachments outside the selection are
never downloaded: the fetch outcome does not depend on their download
results. -/
theorem rrweb_attachment_selection (attachments : List IssueAttachment)
    (download download' : IssueAttachment → Except JsError (List RRWebEvent))
    (hagree : ∀ a ∈ attachments,
      isRRWebEventAttachment a = true → download a = download' a) :
    List.Sublist (attachments.filter isRRWebEventAttachment) attachments ∧
    (∀ a : IssueAttachment, isRRWebEventAttachment a = true ↔
      ∃ n, rrwebMatchAt (List.drop n a.name.toList) = true) ∧
    fetchRRWebEvents (Except.ok attachments) download =
      fetchRRWebEvents (Except.ok attachments) download' := by
  refine ⟨List.filter_sublist attachments, fun a => regexTestRRWeb_iff a.name.toList, ?_⟩
  have hsel : ∀ a ∈ attachments.filter isRRWebEventAttachment, download a = download' a := by
    intro a ha
    obtain ⟨hmem, hsel⟩ := List.mem_filter.mp ha
    exact hagree a hmem hsel
  simp only [fetchRRWebEvents, downloadAll_congr download download' _ hsel]

/-- Sample attachment whose name matches the rrweb convention. -/
def sampleAttachmentA : IssueAttachment := { id := "1", name := "rrweb-1670000000001.json" }

/-- Sample attachment outside the rrweb convention. -/
def sampleAttachmentB : IssueAttachment := { id := "2", name := "other.json" }

/-- Download outcomes for the witness: both succeed. -/
def sampleDownload (a : IssueAttachment) : Except JsError (List RRWebEvent) :=
  if a.id = "1" then Except.ok [{ timestamp := 5, payload := "x" }] else Except.ok []

/-- Alternative download outcomes differing only on the non-selected
attachment. -/
def sampleDownloadAlt (a : IssueAttachment) : Except JsError (List RRWebEvent) :=
  if a.id = "1" then Except.ok [{ timestamp := 5, payload := "x" }]
  else Except.error (JsError.requestError 404)

/-- Witness for `rrweb_attachment_selection` at a concrete attachment
list and concrete download outcomes. -/
theorem rrweb_attachment_selection_witness :
    (∀ a ∈ [sampleAttachmentA, sampleAttachmentB],
      isRRWebEventAttachment a = true → sampleDownload a = sampleDownloadAlt a) ∧
    fetchRRWebEvents (Except.ok [sampleAttachmentA, sampleAttachmentB]) sampleDownload =
      fetchRRWebEvents (Except.ok [sampleAttachmentA, sampleAttachmentB]) sampleDownloadAlt :=
  ⟨by decide, (rrweb_attachment_selection [sampleAttachmentA, sampleAttachmentB]
    sampleDownload sampleDownloadAlt (by decide)).2.2⟩

/-! ## C4 and C5: merging an empty related-event list -/

/-- C4: merging an empty related-event list does not fault: the span
concatenation succeeds with the empty sequence, and the merged event
carries a single empty spans entry and an undefined `endTimestamp`. -/
theorem merge_empty_related_events :
    computeSpans [] = Except.ok [] ∧
    (mkMerged [] []).entries = [{ type := EntryType.spans, data := [] }] ∧
    (mkMerged [] []).endTimestamp = none :=
  ⟨rfl, rfl, rfl⟩

/-- C5 counterexample: with an empty related-event list the whole load
cycle SUCCEEDS — no runtime fault is raised and no error is published,
because object-spreading `undefined` (`...replayEvents[0]`) is a no-op
in JavaScript and the optional chain on the last span yields
`undefined`. -/
theorem empty_related_events_no_fault_counterexample :
    (loadEvents (fun _ => none) (Except.ok emptyBaseEvent)
        (Except.ok []) (Except.ok [])).fetchError = none ∧
    (loadEvents (fun _ => none) (Except.ok emptyBaseEvent)
        (Except.ok []) (Except.ok [])).mergedReplayEvent =
      some { id := none, title := none, breakdowns := none,
             entries := [{ type := EntryType.spans, data := [] }],
             endTimestamp := none } :=
  ⟨rfl, rfl⟩

/-- C5 (amended): when no related events are found, the merge step does
NOT dereference-fault: spreading the missing first element contributes
no attributes, and the cycle publishes a success snapshot whose merged
event has no base attributes, a single empty spans entry, and an
undefined `endTimestamp`. -/
theorem loadEvents_empty_related_events (mergeBreadcrumbs : List Event → Option Entry)
    (ev : Event) (rr : List RRWebEvent) :
    loadEvents mergeBreadcrumbs (Except.ok ev) (Except.ok rr) (Except.ok []) =
      { fetchError := none, fetching := false,
        breadcrumbEntry := mergeBreadcrumbs [],
        event := some ev, replayEvents := some [], rrwebEvents := some rr,
        mergedReplayEvent := some
          { id := none, title := none, breakdowns := none,
            entries := [{ type := EntryType.spans, data := [] }],
            endTimestamp := none } } :=
  rfl

/-! ## C6: eventSlug parsing -/

/-- C6 counterexample: the malformed slug `abc` (no colon) is not
rejected; the destructuring yields `projectId = "abc"` and
`eventId = undefined`, and the attachment-list network call is issued
with the literal string `undefined` interpolated into the URL. -/
theorem malformed_slug_counterexample :
    parseEventSlug "abc" = (some "abc", none) ∧
    attachmentsUrl "org" "abc" = "/projects/org/abc/events/undefined/attachments/" := by
  refine ⟨by decide, by decide⟩

/-- C6 (amended): a well-formed slug `<projectId>:<eventId>` parses
correctly, but malformed slugs are NOT validated or rejected: a slug
without a colon parses to the whole slug and an undefined `eventId`,
and the fetch URL is still built — with `undefined` interpolated —
so the network call proceeds rather than failing early. -/
theorem parse_event_slug_no_validation (orgId p e m : String)
    (hp : ∀ c ∈ p.toList, c ≠ ':') (he : ∀ c ∈ e.toList, c ≠ ':')
    (hm : ∀ c ∈ m.toList, c ≠ ':') :
    parseEventSlug (p ++ ":" ++ e) = (some p, some e) ∧
    parseEventSlug m = (some m, none) ∧
    attachmentsUrl orgId m =
      "/projects/" ++ orgId ++ "/" ++ m ++ "/events/" ++ "undefined" ++ "/attachments/" := by
  have hlist : (p ++ ":" ++ e).toList = p.toList ++ ':' :: e.toList := by
    simp [String.toList, String.data_append]
  have h2 : parseEventSlug m = (some m, none) := by
    unfold parseEventSlug
    rw [splitColon_no_colon m.toList hm]
    rfl
  refine ⟨?_, h2, ?_⟩
  · unfold parseEventSlug
    rw [hlist, splitColon_append_colon p.toList e.toList hp, splitColon_no_colon e.toList he]
    rfl
  · unfold attachmentsUrl
    rw [h2]
    rfl

/-! ## C1: all-or-nothing on fetch failure -/

/-- C1: if any of the three parallel fetch branches fails, the cycle
aborts: the published snapshot has `fetching = false`, `fetchError`
equal to a failing branch's error, and every data field undefined —
never partially populated. -/
theorem loadEvents_fetch_failure_all_or_nothing
    (mergeBreadcrumbs : List Event → Option Entry)
    (fe : Except JsError Event) (fr : Except JsError (List RRWebEvent))
    (fp : Except JsError (List Event))
    (h : fe.isOk = false ∨ fr.isOk = false ∨ fp.isOk = false) :
    (loadEvents mergeBreadcrumbs fe fr fp).fetching = false ∧
    (∃ err : JsError,
      (fe = Except.error err ∨ fr = Except.error err ∨ fp = Except.error err) ∧
      (loadEvents mergeBreadcrumbs fe fr fp).fetchError = some err) ∧
    (loadEvents mergeBreadcrumbs fe fr fp).event = none ∧
    (loadEvents mergeBreadcrumbs fe fr fp).mergedReplayEvent = none ∧
    (loadEvents mergeBreadcrumbs fe fr fp).replayEvents = none ∧
    (loadEvents mergeBreadcrumbs fe fr fp).rrwebEvents = none ∧
    (loadEvents mergeBreadcrumbs fe fr fp).breadcrumbEntry = none := by
  cases fe with
  | error e => exact ⟨rfl, ⟨e, Or.inl rfl, rfl⟩, rfl, rfl, rfl, rfl, rfl⟩
  | ok v =>
    cases fr with
    | error e => exact ⟨rfl, ⟨e, Or.inr (Or.inl rfl), rfl⟩, rfl, rfl, rfl, rfl, rfl⟩
    | ok w =>
      cases fp with
      | error e => exact ⟨rfl, ⟨e, Or.inr (Or.inr rfl), rfl⟩, rfl, rfl, rfl, rfl, rfl⟩
      | ok u => rcases h with h | h | h <;> simp [Except.isOk, Except.toBool] at h

/-- Witness for `loadEvents_fetch_failure_all_or_nothing`: the
attachment-list branch rejects with a 500 while the other branches
resolve. -/
theorem loadEvents_fetch_failure_witness :
    ((Except.ok emptyBaseEvent : Except JsError Event).isOk = false ∨
      (Except.error (JsError.requestError 500) :
        Except JsError (List RRWebEvent)).isOk = false ∨
      (Except.ok ([] : List Event) : Except JsError (List Event)).isOk = false) ∧
    (loadEvents (fun _ => none) (Except.ok emptyBaseEvent)
        (Except.error (JsError.requestError 500)) (Except.ok [])).fetching = false ∧
    (∃ err : JsError,
      ((Except.ok emptyBaseEvent : Except JsError Event) = Except.error err ∨
        (Except.error (JsError.requestError 500) :
          Except JsError (List RRWebEvent)) = Except.error err ∨
        (Except.ok ([] : List Event) : Except JsError (List Event)) = Except.error err) ∧
      (loadEvents (fun _ => none) (Except.ok emptyBaseEvent)
          (Except.error (JsError.requestError 500)) (Except.ok [])).fetchError = some err) ∧
    (loadEvents (fun _ => none) (Except.ok emptyBaseEvent)
        (Except.error (JsError.requestError 500)) (Except.ok [])).event = none ∧
    (loadEvents (fun _ => none) (Except.ok emptyBaseEvent)
        (Except.error (JsError.requestError 500)) (Except.ok [])).mergedReplayEvent = none ∧
    (loadEvents (fun _ => none) (Except.ok emptyBaseEvent)
        (Except.error (JsError.requestError 500)) (Except.ok [])).replayEvents = none ∧
    (loadEvents (fun _ => none) (Except.ok emptyBaseEvent)
        (Except.error (JsError.requestError 500)) (Except.ok [])).rrwebEvents = none ∧
    (loadEvents (fun _ => none) (Except.ok emptyBaseEvent)
        (Except.error (JsError.requestError 500)) (Except.ok [])).breadcrumbEntry = none :=
  ⟨Or.inr (Or.inl rfl),
    loadEvents_fetch_failure_all_or_nothing (fun _ => none) (Except.ok emptyBaseEvent)
      (Except.error (JsError.requestError 500)) (Except.ok []) (Or.inr (Or.inl rfl))⟩

/-! ## C2: merge of two related events -/

/-- C2: for related events `[A, B]` whose first spans entries hold
`[s1, s2]` and `[s3]`, the published merged event carries the single
spans entry `[s1, s2, s3]` and its `endTimestamp` is `s3.timestamp`. -/
theorem loadEvents_merges_two_related_events
    (mergeBreadcrumbs : List Event → Option Entry) (ev : Event) (rr : List RRWebEvent)
    (A B : Event) (enA enB : Entry) (s1 s2 s3 : Span)
    (hA : A.entries.find? isReplayEventEntity = some enA) (hdA : enA.data = [s1, s2])
    (hB : B.entries.find? isReplayEventEntity = some enB) (hdB : enB.data = [s3]) :
    ∃ m : Event,
      (loadEvents mergeBreadcrumbs (Except.ok ev) (Except.ok rr)
          (Except.ok [A, B])).mergedReplayEvent = some m ∧
      m.entries = [{ type := EntryType.spans, data := [s1, s2, s3] }] ∧
      m.endTimestamp = some s3.timestamp := by
  have hfA : findSpansData A = Except.ok [s1, s2] := by
    unfold findSpansData
    simp only [hA, hdA]
  have hfB : findSpansData B = Except.ok [s3] := by
    unfold findSpansData
    simp only [hB, hdB]
  have hspans : computeSpans [A, B] = Except.ok [s1, s2, s3] := by
    simp [computeSpans, hfA, hfB]
  refine ⟨mkMerged [A, B] [s1, s2, s3], ?_, rfl, rfl⟩
  rw [loadEvents_ok_of_spans mergeBreadcrumbs ev rr [A, B] [s1, s2, s3] hspans]

/-- Sample spans and related events for the witnesses. -/
def sampleSpan1 : Span := { timestamp := 10, op := "s1" }

def sampleSpan2 : Span := { timestamp := 20, op := "s2" }

def sampleSpan3 : Span := { timestamp := 30, op := "s3" }

def sampleEventA : Event :=
  { id := some "A", title := some "first", breakdowns := some "bd",
    entries := [{ type := EntryType.spans, data := [sampleSpan1, sampleSpan2] }],
    endTimestamp := none }

def sampleEventB : Event :=
  { id := some "B", title := some "second", breakdowns := none,
    entries := [{ type := EntryType.spans, data := [sampleSpan3] }],
    endTimestamp := none }

/-- Witness for `loadEvents_merges_two_related_events` at the concrete
pair `[sampleEventA, sampleEventB]`. -/
theorem loadEvents_merges_two_related_events_witness :
    sampleEventA.entries.find? isReplayEventEntity =
      some { type := EntryType.spans, data := [sampleSpan1, sampleSpan2] } ∧
    sampleEventB.entries.find? isReplayEventEntity =
      some { type := EntryType.spans, data := [sampleSpan3] } ∧
    ∃ m : Event,
      (loadEvents (fun _ => none) (Except.ok emptyBaseEvent) (Except.ok [])
          (Except.ok [sampleEventA, sampleEventB])).mergedReplayEvent = some m ∧
      m.entries =
        [{ type := EntryType.spans, data := [sampleSpan1, sampleSpan2, sampleSpan3] }] ∧
      m.endTimestamp = some sampleSpan3.timestamp :=
  ⟨by decide, by decide,
    loadEvents_merges_two_related_events (fun _ => none) emptyBaseEvent []
      sampleEventA sampleEventB
      { type := EntryType.spans, data := [sampleSpan1, sampleSpan2] }
      { type := EntryType.spans, data := [sampleSpan3] }
      sampleSpan1 sampleSpan2 sampleSpan3 (by decide) rfl (by decide) rfl⟩

/-! ## C7: only the first spans entry contributes -/

/-- C7: when an event's entry list holds more than one spans-tagged
entry, only the first one contributes its data; any later spans entry
(`en2`, somewhere after the first) is ignored. -/
theorem first_spans_entry_wins (e : Event) (pre mid rest : List Entry) (en en2 : Entry)
    (hen : isReplayEventEntity en = true) (hen2 : isReplayEventEntity en2 = true)
    (hpre : ∀ x ∈ pre, isReplayEventEntity x = false)
    (hentries : e.entries = pre ++ en :: (mid ++ en2 :: rest)) :
    findSpansData e = Except.ok en.data ∧ computeSpans [e] = Except.ok en.data := by
  have h1 : pre.find? isReplayEventEntity = none :=
    List.find?_eq_none.mpr fun x hx => by simp [hpre x hx]
  have hfind : e.entries.find? isReplayEventEntity = some en := by
    rw [hentries, List.find?_append, h1, List.find?_cons_of_pos _ hen]
    rfl
  have h2 : findSpansData e = Except.ok en.data := by
    unfold findSpansData
    simp only [hfind]
  exact ⟨h2, by simp [computeSpans, h2]⟩

/-- Event with two spans entries, for the C7 witness. -/
def dupSpansEvent : Event :=
  { id := some "dup", title := none, breakdowns := none,
    entries := [{ type := EntryType.spans, data := [sampleSpan1] },
                { type := EntryType.spans, data := [sampleSpan2] }],
    endTimestamp := none }

/-- Witness for `first_spans_entry_wins`: with two spans entries, only
the first entry's data `[sampleSpan1]` is used. -/
theorem first_spans_entry_wins_witness :
    isReplayEventEntity { type := EntryType.spans, data := [sampleSpan1] } = true ∧
    isReplayEventEntity { type := EntryType.spans, data := [sampleSpan2] } = true ∧
    (∀ x ∈ ([] : List Entry), isReplayEventEntity x = false) ∧
    dupSpansEvent.entries =
      [] ++ { type := EntryType.spans, data := [sampleSpan1] } ::
        ([] ++ { type := EntryType.spans, data := [sampleSpan2] } :: []) ∧
    findSpansData dupSpansEvent = Except.ok [sampleSpan1] ∧
    computeSpans [dupSpansEvent] = Except.ok [sampleSpan1] := by
  refine ⟨rfl, rfl, by simp, rfl, ?_, ?_⟩
  · exact (first_spans_entry_wins dupSpansEvent [] [] []
      { type := EntryType.spans, data := [sampleSpan1] }
      { type := EntryType.spans, data := [sampleSpan2] }
      rfl rfl (by simp) rfl).1
  · exact (first_spans_entry_wins dupSpansEvent [] [] []
      { type := EntryType.spans, data := [sampleSpan1] }
      { type := EntryType.spans, data := [sampleSpan2] }
      rfl rfl (by simp) rfl).2

/-! ## C8: shape of the merged event -/

/-- C8: for a non-empty related-event list whose span concatenation
succeeds, the published merged event keeps every base attribute of the
first related event (`id`, `title`), clears `breakdowns`, replaces
`entries` with a single spans entry holding the concatenation, and
sets `endTimestamp` to the last concatenated span's timestamp — or
undefined when the concatenation is empty. -/
theorem merged_event_shape (mergeBreadcrumbs : List Event → Option Entry)
    (ev : Event) (rr : List RRWebEvent) (e : Event) (rest : List Event)
    (spans : List Span) (hspans : computeSpans (e :: rest) = Except.ok spans) :
    (loadEvents mergeBreadcrumbs (Except.ok ev) (Except.ok rr)
        (Except.ok (e :: rest))).mergedReplayEvent =
      some { id := e.id, title := e.title, breakdowns := none,
             entries := [{ type := EntryType.spans, data := spans }],
             endTimestamp := (spans.getLast?).map Span.timestamp } := by
  rw [loadEvents_ok_of_spans mergeBreadcrumbs ev rr (e :: rest) spans hspans]
  rfl

/-- Witness for `merged_event_shape` at the concrete related events
`[sampleEventA, sampleEventB]` (note `sampleEventA.breakdowns` is set
and gets cleared). -/
theorem merged_event_shape_witness :
    computeSpans [sampleEventA, sampleEventB] =
      Except.ok [sampleSpan1, sampleSpan2, sampleSpan3] ∧
    (loadEvents (fun _ => none) (Except.ok emptyBaseEvent) (Except.ok [])
        (Except.ok [sampleEventA, sampleEventB])).mergedReplayEvent =
      some { id := sampleEventA.id, title := sampleEventA.title, breakdowns := none,
             entries := [{ type := EntryType.spans,
                           data := [sampleSpan1, sampleSpan2, sampleSpan3] }],
             endTimestamp :=
               (List.getLast? [sampleSpan1, sampleSpan2, sampleSpan3]).map Span.timestamp } :=
  ⟨by decide,
    merged_event_shape (fun _ => none) emptyBaseEvent [] sampleEventA [sampleEventB]
      [sampleSpan1, sampleSpan2, sampleSpan3] (by decide)⟩

/-! ## C9: stale in-flight cycles -/

/-- Root event of the stale cycle. -/
def staleEvent : Event :=
  { id := some "stale", title := none, breakdowns := none, entries := [],
    endTimestamp := none }

/-- Root event of the fresh cycle. -/
def freshEvent : Event :=
  { id := some "fresh", title := none, breakdowns := none, entries := [],
    endTimestamp := none }

/-- The load cycle started for the old `eventSlug`, still in flight
when the slug changes. -/
def staleCycle : LoadCycle :=
  { mergeBreadcrumbs := fun _ => none, fetchEvent := Except.ok staleEvent,
    fetchRRWeb := Except.ok [], fetchReplay := Except.ok [] }

/-- The load cycle started for the new `eventSlug`. -/
def freshCycle : LoadCycle :=
  { mergeBreadcrumbs := fun _ => none, fetchEvent := Except.ok freshEvent,
    fetchRRWeb := Except.ok [], fetchReplay := Except.ok [] }

/-- C9 counterexample: when the fresh cycle completes first and the
stale cycle completes later, the final published snapshot IS the stale
cycle's result — its root event is `staleEvent`, not `freshEvent` —
because the completion handler publishes unconditionally. -/
theorem stale_result_published_counterexample :
    publishAll initialState [freshCycle, staleCycle] = completeCycle staleCycle ∧
    (publishAll initialState [freshCycle, staleCycle]).event = some staleEvent ∧
    completeCycle staleCycle ≠ completeCycle freshCycle := by
  refine ⟨rfl, rfl, ?_⟩
  decide

/-- C9 (amended): the source has no stale-result guard: every cycle
completion is published unconditionally, so after any sequence of
completions the snapshot is the LAST completed cycle's result — even
when that cycle is a stale one that was superseded before it
finished. -/
theorem late_completion_overwrites (init : State) (pending : List LoadCycle)
    (lastCycle : LoadCycle) :
    publishAll init (pending ++ [lastCycle]) = completeCycle lastCycle := by
  unfold publishAll
  rw [List.foldl_append]
  rfl

/-! ## C10: missing spans entry is caught by the catch clause -/

/-- `findSpansData` can only fail with the `TypeError` raised by
reading `.data` off `undefined`. -/
theorem findSpansData_error_eq (a : Event) (err : JsError)
    (h : findSpansData a = Except.error err) : err = JsError.typeError := by
  unfold findSpansData at h
  cases hx : a.entries.find? isReplayEventEntity with
  | some en =>
    rw [hx] at h
    exact Except.noConfusion h
  | none =>
    rw [hx] at h
    injection h with h2
    exact h2.symm

/-- If some related event has no spans-tagged entry, the span
concatenation raises the `TypeError`. -/
theorem computeSpans_error_of_missing (evs : List Event)
    (h : ∃ e ∈ evs, e.entries.find? isReplayEventEntity = none) :
    computeSpans evs = Except.error JsError.typeError := by
  induction evs with
  | nil => simp at h
  | cons a rest ih =>
    rcases h with ⟨e, he, hfind⟩
    rcases List.mem_cons.mp he with heq | hmem
    · subst heq
      have ha : findSpansData e = Except.error JsError.typeError := by
        unfold findSpansData
        simp only [hfind]
      simp [computeSpans, ha]
    · cases hfa : findSpansData a with
      | error err =>
        have herr := findSpansData_error_eq a err hfa
        subst herr
        simp [computeSpans, hfa]
      | ok d =>
        simp [computeSpans, hfa, ih ⟨e, hmem, hfind⟩]

/-- C10: when all three fetches succeed but some related event lacks a
spans-tagged entry, the `TypeError` raised during the merge lands in
the same `catch` clause as fetch failures: the published snapshot has
`fetchError` set and every data field undefined. -/
theorem missing_spans_entry_caught (mergeBreadcrumbs : List Event → Option Entry)
    (ev : Event) (rr : List RRWebEvent) (evs : List Event)
    (h : ∃ e ∈ evs, e.entries.find? isReplayEventEntity = none) :
    loadEvents mergeBreadcrumbs (Except.ok ev) (Except.ok rr) (Except.ok evs) =
      errorSnapshot JsError.typeError := by
  simp only [loadEvents, promiseAll3, computeSpans_error_of_missing evs h]

/-- Related event without a spans entry, for the C10 witness. -/
def noSpansEvent : Event :=
  { id := some "nospans", title := none, breakdowns := none,
    entries := [{ type := EntryType.breadcrumbs, data := [] }],
    endTimestamp := none }

/-- Witness for `missing_spans_entry_caught` at a single related event
carrying only a breadcrumbs entry. -/
theorem missing_spans_entry_caught_witness :
    (∃ e ∈ [noSpansEvent], e.entries.find? isReplayEventEntity = none) ∧
    loadEvents (fun _ => none) (Except.ok emptyBaseEvent) (Except.ok [])
        (Except.ok [noSpansEvent]) = errorSnapshot JsError.typeError :=
  ⟨⟨noSpansEvent, by decide, by decide⟩,
    missing_spans_entry_caught (fun _ => none) emptyBaseEvent [] [noSpansEvent]
      ⟨noSpansEvent, by decide, by decide⟩⟩

/-- Witness for `parse_event_slug_no_validation` at the valid slug
`123:abc` and the malformed slug `xyz`. -/
theorem parse_event_slug_no_validation_witness :
    (∀ c ∈ "123".toList, c ≠ ':') ∧ (∀ c ∈ "abc".toList, c ≠ ':') ∧
    (∀ c ∈ "xyz".toList, c ≠ ':') ∧
    (parseEventSlug ("123" ++ ":" ++ "abc") = (some "123", some "abc") ∧
      parseEventSlug "xyz" = (some "xyz", none) ∧
      attachmentsUrl "org" "xyz" =
        "/projects/" ++ "org" ++ "/" ++ "xyz" ++ "/events/" ++ "undefined" ++
          "/attachments/") :=
  ⟨by decide, by decide, by decide,
    parse_event_slug_no_validation "org" "123" "abc" "xyz"
      (by decide) (by decide) (by decide)⟩
